import Mathlib

/-!
Shallow embedding of `src/launcher/updater/PrismExternalUpdater.cpp`:
the `PrismExternalUpdater` controller (update check, offer dialog flow,
auto-check scheduler, key/value settings store) and the `FlameAPI`
request-URL builder that is appended to the same source file.

Strings are embedded as `List Char`.  Timestamps are integer seconds
(`Int`); the external Qt ISO-8601 string round trip for the persisted
`last_check` value is modelled as the identity on such integers, while the
ISO parse of the subprocess's third output line (whose validity the spec
talks about) is modelled by an explicit format check returning `Option`.
The update interval is modelled as integer seconds: the settings store
reads it with `toInt` and the spec declares it an int; its transient
`double` representation in the C++ object is a floating-point detail
outside the embedding.
-/

abbrev Str := List Char

namespace StringUtils

/-- Modelled from the spec: `StringUtils::splitFirst` (declared in
`StringUtils.h`, body not part of the excerpt) splits a string at the
first occurrence of a separator into the part before and the part after
it; when the separator does not occur, the remainder is empty — the spec's
"fewer than 3 lines yields empty strings for missing fields".  This is the
single-character-separator overload used with `'\n'`. -/
def splitFirstChar (c : Char) : Str → Str × Str
  | [] => ([], [])
  | x :: xs =>
    if x = c then ([], xs)
    else
      let p := splitFirstChar c xs
      (x :: p.1, p.2)

/-- Modelled from the spec: the string-separator overload of
`StringUtils::splitFirst`, used with `": "`. -/
def splitFirstStr (sep : Str) : Str → Str × Str
  | [] => ([], [])
  | x :: xs =>
    if List.isPrefixOf sep (x :: xs) then ([], List.drop sep.length (x :: xs))
    else
      let p := splitFirstStr sep xs
      (x :: p.1, p.2)

end StringUtils

namespace QtModel

/-- ASCII whitespace stripped by `QString::trimmed`. -/
def isQtSpace (c : Char) : Bool :=
  c = ' ' || c = '\t' || c = '\n' || c = '\x0b' || c = '\x0c' || c = '\r'

/-- Model of `QString::trimmed`: strip leading and trailing whitespace. -/
def trimmed (s : Str) : Str :=
  ((s.dropWhile isQtSpace).reverse.dropWhile isQtSpace).reverse

def isDigitCh (c : Char) : Bool :=
  decide ('0' ≤ c) && decide (c ≤ '9')

/-- Match a string against a template where `'d'` stands for a digit and
every other template character stands for itself. -/
def matchesTemplate : Str → Str → Bool
  | [], [] => true
  | t :: ts, c :: cs =>
    (if t = 'd' then isDigitCh c else t = c) && matchesTemplate ts cs
  | _, _ => false

/-- Model of the validity test of `QDateTime::fromString(s, Qt::ISODate)`
at the library boundary: a date-time `YYYY-MM-DDTHH:MM:SS` or a bare date
`YYYY-MM-DD` is valid, anything else yields an invalid `QDateTime`. -/
def isISODate (s : Str) : Bool :=
  matchesTemplate ("dddd-dd-ddTdd:dd:dd").toList s ||
  matchesTemplate ("dddd-dd-dd").toList s

/-- `QDateTime::fromString(s, Qt::ISODate)`: an invalid result is `none`
(invalid but non-fatal), a valid one keeps the source text. -/
def parseISODate (s : Str) : Option Str :=
  if isISODate s then some s else none

end QtModel

namespace PrismExternalUpdater

/-- The persisted key/value store `prismlauncher_update.cfg`, with one
field per key the source reads or writes.  `auto_beta` is the key
`setBetaAllowed` actually writes (source line 202); `last_check` holds an
integer timestamp, standing for its ISO-8601 string form. -/
structure Settings where
  allow_beta : Option Bool
  auto_check : Option Bool
  auto_beta : Option Bool
  update_interval : Option Int
  last_check : Option Int
  /-- the `skip` group: version tag ↦ bool, first entry wins (a
  `setValue` prepends, modelling overwrite) -/
  skip : List (Str × Bool)
deriving DecidableEq

def lookupSkip (s : Settings) (tag : Str) : Bool :=
  (s.skip.lookup tag).getD false

def setSkip (s : Settings) (tag : Str) (b : Bool) : Settings :=
  { s with skip := (tag, b) :: s.skip }

/-- Result values of `UpdateAvailableDialog::exec()`. -/
inductive DialogResult where
  | Install
  | Skip
  | DontInstall
deriving DecidableEq

/-- The transient parse result of the exit-code-100 stdout payload. -/
structure UpdateOffer where
  versionName : Str
  versionTag : Str
  releaseTimestamp : Option Str
  releaseNotes : Str
deriving DecidableEq

/-- The stdout parser of `checkForUpdates`, case 100 (source lines
145-150): three `splitFirst` calls at newlines, then a `": "` split and
trim on each header line; the remainder after the third newline is the
release notes, taken verbatim. -/
def parseUpdateOutput (std_output : Str) : UpdateOffer :=
  let p1 := StringUtils.splitFirstChar '\n' std_output
  let p2 := StringUtils.splitFirstChar '\n' p1.2
  let p3 := StringUtils.splitFirstChar '\n' p2.2
  { versionName := QtModel.trimmed (StringUtils.splitFirstStr [':', ' '] p1.1).2
    versionTag := QtModel.trimmed (StringUtils.splitFirstStr [':', ' '] p2.1).2
    releaseTimestamp :=
      QtModel.parseISODate (QtModel.trimmed (StringUtils.splitFirstStr [':', ' '] p3.1).2)
    releaseNotes := p3.2 }

/-- Effect of `performUpdate` (source lines 270-287): dispatch the
detached installer for the tag and request application exit. -/
structure PerformResult where
  installDispatchedTag : Option Str
  exitRequested : Bool
deriving DecidableEq

def performUpdate (version_tag : Str) : PerformResult :=
  { installDispatchedTag := some version_tag, exitRequested := true }

/-- Observable outcome of one `offerUpdate` call. -/
structure OfferResult where
  settings : Settings
  presented : Bool
  installDispatchedTag : Option Str
  exitRequested : Bool
deriving DecidableEq

/-- `offerUpdate` (source lines 241-268).  The skip group is consulted
first; a skipped tag returns untouched.  Otherwise the dialog runs and
`choice` is its result.  NOTE: the source's `switch` on the dialog result
has no `break` or `return` between the `Install` and `Skip` cases, so
choosing Install executes `performUpdate` (which only *requests* exit via
`QCoreApplication::exit`; control still returns) and then falls through
into the Skip body, writing `skip/<tag> = true` and syncing. -/
def offerUpdate (s : Settings) (version_tag : Str) (choice : DialogResult) : OfferResult :=
  if lookupSkip s version_tag then
    { settings := s, presented := false, installDispatchedTag := none, exitRequested := false }
  else
    match choice with
    | .Install =>
      let p := performUpdate version_tag
      { settings := setSkip s version_tag true
        presented := true
        installDispatchedTag := p.installDispatchedTag
        exitRequested := p.exitRequested }
    | .Skip =>
      { settings := setSkip s version_tag true
        presented := true
        installDispatchedTag := none
        exitRequested := false }
    | .DontInstall =>
      { settings := s, presented := true, installDispatchedTag := none, exitRequested := false }

/-- Observable outcome of one `checkForUpdates` run. -/
structure CheckResult where
  settings : Settings
  lastCheck : Option Int
  offerPresented : Bool
  installDispatchedTag : Option Str
  exitRequested : Bool
deriving DecidableEq

/-- `checkForUpdates` (source lines 83-166), abstracted over the
subprocess result (`exit_code`, `std_output`) and the operator's dialog
choice.  Exit codes 0 and 1 only show message boxes; 100 parses stdout
and runs `offerUpdate`; any other code only logs.  After the switch, in
every case, `lastCheck` is set to now and persisted under `last_check`. -/
def checkForUpdates (s : Settings) (exit_code : Int) (std_output : Str)
    (choice : DialogResult) (now : Int) : CheckResult :=
  let r : OfferResult :=
    if exit_code = 100 then
      offerUpdate s (parseUpdateOutput std_output).versionTag choice
    else
      { settings := s, presented := false, installDispatchedTag := none, exitRequested := false }
  { settings := { r.settings with last_check := some now }
    lastCheck := some now
    offerPresented := r.presented
    installDispatchedTag := r.installDispatchedTag
    exitRequested := r.exitRequested }

/-- `resetAutoCheckTimer` (source lines 206-224): `none` means the timer
is stopped / not armed, `some d` means armed with `d` milliseconds.
`timeoutDuration` starts at 0; with a valid last check it becomes
`(updateInterval - secsTo(lastCheck, now))` clamped at 0, times 1000. -/
def resetAutoCheckTimer (autoCheck : Bool) (updateInterval : Int)
    (lastCheck : Option Int) (now : Int) : Option Int :=
  if autoCheck then
    match lastCheck with
    | some lc =>
      let diff := now - lc
      let secsLeft := updateInterval - diff
      let secsLeft := if secsLeft < 0 then 0 else secsLeft
      some (secsLeft * 1000)
    | none => some 0
  else
    none

/-- In-memory state of the controller: the `Private` fields the claims
concern, plus the timer and the backing store. -/
structure UpdaterState where
  allowBeta : Bool
  autoCheck : Bool
  updateInterval : Int
  lastCheck : Option Int
  timer : Option Int
  settings : Settings
deriving DecidableEq

/-- The constructor (source lines 53-72): read `allow_beta`, `auto_check`,
`update_interval` (default 86400), `last_check` from the store, then
`resetAutoCheckTimer`. -/
def construct (s : Settings) (now : Int) : UpdaterState :=
  let allowBeta := s.allow_beta.getD false
  let autoCheck := s.auto_check.getD false
  let updateInterval := s.update_interval.getD 86400
  let lastCheck := s.last_check
  { allowBeta := allowBeta
    autoCheck := autoCheck
    updateInterval := updateInterval
    lastCheck := lastCheck
    timer := resetAutoCheckTimer autoCheck updateInterval lastCheck now
    settings := s }

/-- `setAutomaticallyChecksForUpdates` (source lines 183-189): set the
field, persist under `auto_check`, sync, re-arm the timer. -/
def setAutomaticallyChecksForUpdates (st : UpdaterState) (check : Bool) (now : Int) : UpdaterState :=
  let st := { st with autoCheck := check
                      settings := { st.settings with auto_check := some check } }
  { st with timer := resetAutoCheckTimer st.autoCheck st.updateInterval st.lastCheck now }

/-- `setUpdateCheckInterval` (source lines 191-197): set the field,
persist under `update_interval`, sync, re-arm the timer. -/
def setUpdateCheckInterval (st : UpdaterState) (seconds : Int) (now : Int) : UpdaterState :=
  let st := { st with updateInterval := seconds
                      settings := { st.settings with update_interval := some seconds } }
  { st with timer := resetAutoCheckTimer st.autoCheck st.updateInterval st.lastCheck now }

/-- `setBetaAllowed` (source lines 199-204): set the field, persist —
under the key `auto_beta`, as written on source line 202 — and sync.  It
does not call `resetAutoCheckTimer`. -/
def setBetaAllowed (st : UpdaterState) (allowed : Bool) : UpdaterState :=
  { st with allowBeta := allowed
            settings := { st.settings with auto_beta := some allowed } }

/-- A fresh, empty settings store. -/
def settings0 : Settings :=
  { allow_beta := none, auto_check := none, auto_beta := none
    update_interval := none, last_check := none, skip := [] }

end PrismExternalUpdater

namespace ModPlatform

/-- Modelled from the spec / header usage: the provider enumeration; the
dependency-URL override only compares against `FLAME`. -/
inductive ResourceProvider where
  | FLAME
  | MODRINTH
deriving DecidableEq

/-- An entry of `ModPlatform::getOverrideDeps()` (body not part of the
excerpt), with the two fields the `find_if` on source lines 405-407
reads: the owning provider and the addon id under `quilt`. -/
structure OverrideDep where
  quilt : String
  provider : ResourceProvider
deriving DecidableEq

/-- The mod-loader flag set; the source tests exactly the `Forge`,
`Fabric`, `Quilt` and `NeoForge` bits, one Bool each. -/
structure ModLoaderTypes where
  neoforge : Bool
  forge : Bool
  fabric : Bool
  quilt : Bool
deriving DecidableEq

end ModPlatform

namespace FlameAPI

open ModPlatform

/-- `FlameAPI::getMappedModLoader` (source lines 331-343): first matching
bit in the order Forge, Fabric, Quilt, NeoForge wins; otherwise 0. -/
def getMappedModLoader (loaders : ModLoaderTypes) : Nat :=
  if loaders.forge then 1
  else if loaders.fabric then 4
  else if loaders.quilt then 5
  else if loaders.neoforge then 6
  else 0

structure Dependency where
  addonId : String
deriving DecidableEq

structure DependencySearchArgs where
  dependency : Dependency
  loader : ModLoaderTypes
  mcVersion : String
deriving DecidableEq

/-- `FlameAPI::getDependencyURL` (source lines 399-416), abstracted over
the contents of the `ModPlatform::getOverrideDeps()` table: when the
requested loader has the Quilt bit and some table entry has provider
`FLAME` and `quilt` equal to the addon id, the mapped loader is replaced
by 5; the three `.arg` substitutions build the URL. -/
def getDependencyURL (overrideDeps : List OverrideDep) (args : DependencySearchArgs) : String :=
  let mappedModLoader := getMappedModLoader args.loader
  let addonId := args.dependency.addonId
  let mappedModLoader :=
    if args.loader.quilt &&
        overrideDeps.any (fun dep =>
          decide (dep.provider = ResourceProvider.FLAME) && decide (addonId = dep.quilt)) then
      5
    else mappedModLoader
  "https://api.curseforge.com/v1/mods/" ++ addonId ++ "/files?pageSize=10000&gameVersion=" ++
    args.mcVersion ++ "&modLoaderType=" ++ toString mappedModLoader

end FlameAPI

open PrismExternalUpdater ModPlatform

/-- The concrete exit-code-100 stdout payload named by the spec's test
property. -/
def exampleStdout : Str :=
  ("Version: 1.2.3\nTag: v1.2.3\nTimestamp: 2024-01-01T00:00:00\nFixed bugs.\n").toList

/-- C1: on a tag not yet in the SkipList, choosing Install dispatches the
installer and requests exit, but — because the source's `switch` falls
through from the Install case into the Skip case — it ALSO writes
`SkipList[versionTag] = true`, contradicting the claim that the skip
entry is not set after Install. -/
theorem offerUpdate_install_falls_through_to_skip :
    (offerUpdate settings0 (("v1.2.3").toList) DialogResult.Install).presented = true ∧
    (offerUpdate settings0 (("v1.2.3").toList) DialogResult.Install).installDispatchedTag =
      some (("v1.2.3").toList) ∧
    (offerUpdate settings0 (("v1.2.3").toList) DialogResult.Install).exitRequested = true ∧
    lookupSkip (offerUpdate settings0 (("v1.2.3").toList) DialogResult.Install).settings
      (("v1.2.3").toList) = true := by
  decide

/-- C2: every run of the check flow, whatever the exit code, stdout and
dialog choice, ends by setting `lastCheck` to now and persisting it under
`last_check`; and with exit code 0 no update offer is presented. -/
theorem checkForUpdates_always_records_lastCheck
    (s : Settings) (exit_code : Int) (std_output : Str) (choice : DialogResult) (now : Int) :
    (checkForUpdates s exit_code std_output choice now).lastCheck = some now ∧
    (checkForUpdates s exit_code std_output choice now).settings.last_check = some now ∧
    (exit_code = 0 →
      (checkForUpdates s exit_code std_output choice now).offerPresented = false) := by
  refine ⟨rfl, rfl, fun h => ?_⟩
  subst h
  rfl

/-- Witness for C2 at exit code 0 on a fresh store. -/
theorem checkForUpdates_always_records_lastCheck_witness :
    (checkForUpdates settings0 0 [] DialogResult.Skip 42).lastCheck = some 42 ∧
    (checkForUpdates settings0 0 [] DialogResult.Skip 42).settings.last_check = some 42 ∧
    (checkForUpdates settings0 0 [] DialogResult.Skip 42).offerPresented = false :=
  ⟨(checkForUpdates_always_records_lastCheck settings0 0 [] DialogResult.Skip 42).1,
   (checkForUpdates_always_records_lastCheck settings0 0 [] DialogResult.Skip 42).2.1,
   (checkForUpdates_always_records_lastCheck settings0 0 [] DialogResult.Skip 42).2.2 rfl⟩

/-- C3 counterexample: on the spec's concrete payload the parser yields
the claimed version name and tag, but the release notes are the verbatim
remainder after the third newline, "Fixed bugs.\n" — not the claimed
"Fixed bugs." without the trailing newline. -/
theorem parseUpdateOutput_example_notes_have_newline :
    (parseUpdateOutput exampleStdout).versionName = ("1.2.3").toList ∧
    (parseUpdateOutput exampleStdout).versionTag = ("v1.2.3").toList ∧
    (parseUpdateOutput exampleStdout).releaseNotes = ("Fixed bugs.\n").toList ∧
    (parseUpdateOutput exampleStdout).releaseNotes ≠ ("Fixed bugs.").toList := by
  decide

theorem splitFirstChar_not_mem (c : Char) (s : Str) (h : c ∉ s) :
    StringUtils.splitFirstChar c s = (s, []) := by
  induction s with
  | nil => rfl
  | cons x xs ih =>
    have hxc : ¬ x = c := fun he => h (by simp [he])
    have hcx : c ∉ xs := fun hm => h (List.mem_cons_of_mem _ hm)
    simp [StringUtils.splitFirstChar, hxc, ih hcx]

theorem splitFirstChar_snd_count (c : Char) (s : Str) :
    List.count c (StringUtils.splitFirstChar c s).2 = List.count c s - 1 := by
  induction s with
  | nil => simp [StringUtils.splitFirstChar]
  | cons x xs ih =>
    by_cases hx : x = c
    · subst hx
      simp [StringUtils.splitFirstChar, List.count_cons_self]
    · have hcx : c ≠ x := fun he => hx he.symm
      simp [StringUtils.splitFirstChar, hx, ih, List.count_cons_of_ne hcx]

/-- C4: the exit-code-100 parser is total and permissive: the empty
string gives all-empty fields; a 1-line input (no newline) gives empty
tag, invalid timestamp and empty notes; at most 2 lines gives empty
notes; and a malformed timestamp on line 3 yields an invalid
(`none`) timestamp while the other fields still parse. -/
theorem parseUpdateOutput_permissive :
    parseUpdateOutput [] =
      { versionName := [], versionTag := [], releaseTimestamp := none, releaseNotes := [] } ∧
    (∀ s : Str, List.count '\n' s = 0 →
      (parseUpdateOutput s).versionTag = [] ∧
      (parseUpdateOutput s).releaseTimestamp = none ∧
      (parseUpdateOutput s).releaseNotes = []) ∧
    (∀ s : Str, List.count '\n' s ≤ 1 → (parseUpdateOutput s).releaseNotes = []) ∧
    ((parseUpdateOutput (("Version: 1.2.3\nTag: v1\nTimestamp: notadate\nnotes").toList)).releaseTimestamp
        = none ∧
      (parseUpdateOutput (("Version: 1.2.3\nTag: v1\nTimestamp: notadate\nnotes").toList)).versionName
        = ("1.2.3").toList) := by
  refine ⟨by decide, fun s h0 => ?_, fun s h1 => ?_, by decide⟩
  · have hmem : '\n' ∉ s := List.count_eq_zero.mp h0
    have hsp := splitFirstChar_not_mem '\n' s hmem
    refine ⟨?_, ?_, ?_⟩ <;>
      · simp only [parseUpdateOutput, hsp]
        decide
  · have hc2 : List.count '\n' (StringUtils.splitFirstChar '\n' s).2 = 0 := by
      have := splitFirstChar_snd_count '\n' s
      omega
    have hmem2 : '\n' ∉ (StringUtils.splitFirstChar '\n' s).2 := List.count_eq_zero.mp hc2
    have hsp2 := splitFirstChar_not_mem '\n' (StringUtils.splitFirstChar '\n' s).2 hmem2
    simp only [parseUpdateOutput, hsp2]
    decide

/-- Witness for C4 on the 1-line input "abc". -/
theorem parseUpdateOutput_permissive_witness :
    (parseUpdateOutput (("abc").toList)).versionTag = [] ∧
    (parseUpdateOutput (("abc").toList)).releaseTimestamp = none ∧
    (parseUpdateOutput (("abc").toList)).releaseNotes = [] :=
  ⟨(parseUpdateOutput_permissive.2.1 (("abc").toList) (by decide)).1,
   (parseUpdateOutput_permissive.2.1 (("abc").toList) (by decide)).2.1,
   parseUpdateOutput_permissive.2.2.1 (("abc").toList) (by decide)⟩

/-- C5: the scheduler recomputation — disabled auto-check arms no timer;
enabled with no recorded check arms with delay 0; enabled with a recorded
check arms with max(0, interval - secondsSince(lastCheck)) seconds,
converted to milliseconds. -/
theorem resetAutoCheckTimer_spec (interval : Int) (lastCheck : Option Int) (now : Int) :
    resetAutoCheckTimer false interval lastCheck now = none ∧
    resetAutoCheckTimer true interval none now = some 0 ∧
    ∀ lc : Int, resetAutoCheckTimer true interval (some lc) now =
      some (max 0 (interval - (now - lc)) * 1000) := by
  refine ⟨rfl, rfl, fun lc => ?_⟩
  have hmax : (if interval - (now - lc) < 0 then (0 : Int) else interval - (now - lc)) =
      max 0 (interval - (now - lc)) := by
    rcases lt_or_le (interval - (now - lc)) 0 with h | h
    · rw [if_pos h, max_eq_left h.le]
    · rw [if_neg (not_lt.mpr h), max_eq_right h]
  show some ((if interval - (now - lc) < 0 then (0 : Int) else interval - (now - lc)) * 1000) = _
  rw [hmax]

/-- C6 counterexample: with now = 0, a future lastCheck = 100 and the
default interval, the armed delay is 86500000 ms (interval plus the
skew), not 0 — the claim that a future lastCheck clamps the delay to 0 is
false on the code. -/
theorem resetAutoCheckTimer_future_lastCheck_not_zero :
    (0 : Int) < 100 ∧
    resetAutoCheckTimer true 86400 (some 100) 0 = some 86500000 ∧
    resetAutoCheckTimer true 86400 (some 100) 0 ≠ some 0 := by
  decide

/-- C6 amended: the armed delay is never negative; for a lastCheck in the
future (with a nonnegative interval) it is interval + (lastCheck - now)
milliseconds·— larger than the interval, not 0; and for a lastCheck
exactly interval seconds in the past the delay is 0. -/
theorem resetAutoCheckTimer_clamps_at_zero (interval lc now : Int) :
    (∀ d : Int, resetAutoCheckTimer true interval (some lc) now = some d → 0 ≤ d) ∧
    (now < lc → 0 ≤ interval →
      resetAutoCheckTimer true interval (some lc) now = some ((interval + (lc - now)) * 1000)) ∧
    (0 < interval →
      resetAutoCheckTimer true interval (some (now - interval)) now = some 0) := by
  have h1 : resetAutoCheckTimer true interval (some lc) now =
      some ((if interval - (now - lc) < 0 then (0 : Int) else interval - (now - lc)) * 1000) := rfl
  refine ⟨fun d hd => ?_, fun hfut hint => ?_, fun hint => ?_⟩
  · rw [h1, Option.some_inj] at hd
    subst hd
    split_ifs with h <;> omega
  · have hx : interval - (now - lc) = interval + (lc - now) := by ring
    rw [h1, if_neg (by omega : ¬ interval - (now - lc) < 0), hx]
  · have h3 : resetAutoCheckTimer true interval (some (now - interval)) now =
        some ((if interval - (now - (now - interval)) < 0 then (0 : Int)
          else interval - (now - (now - interval))) * 1000) := rfl
    have hz : interval - (now - (now - interval)) = 0 := by ring
    rw [h3, hz]
    norm_num

/-- Witness for C6's amended statement: future lastCheck 100 at now 0
with interval 86400, and a lastCheck exactly one interval in the past. -/
theorem resetAutoCheckTimer_clamps_at_zero_witness :
    resetAutoCheckTimer true 86400 (some 100) 0 = some ((86400 + (100 - 0)) * 1000) ∧
    resetAutoCheckTimer true 86400 (some (0 - 86400)) 0 = some 0 :=
  ⟨(resetAutoCheckTimer_clamps_at_zero 86400 100 0).2.1 (by decide) (by decide),
   (resetAutoCheckTimer_clamps_at_zero 86400 100 0).2.2 (by decide)⟩

/-- C3 amended: line 1 yields the version name, line 2 the version tag,
line 3 a valid ISO-8601 release timestamp, and the remainder the release
notes kept verbatim; on the concrete payload the result is versionName
"1.2.3", versionTag "v1.2.3", releaseNotes "Fixed bugs.\n". -/
theorem parseUpdateOutput_example_parse :
    parseUpdateOutput exampleStdout =
      { versionName := ("1.2.3").toList
        versionTag := ("v1.2.3").toList
        releaseTimestamp := some (("2024-01-01T00:00:00").toList)
        releaseNotes := ("Fixed bugs.\n").toList } := by
  decide

/-- C7: when the skip group already maps the version tag to true, the
offer flow returns before the dialog: nothing is presented, no install is
dispatched, no exit is requested, and the settings are unchanged. -/
theorem offerUpdate_skipped_tag_never_presented (s : Settings) (tag : Str)
    (choice : DialogResult) (h : lookupSkip s tag = true) :
    offerUpdate s tag choice =
      { settings := s, presented := false, installDispatchedTag := none,
        exitRequested := false } := by
  simp [offerUpdate, h]

/-- A store whose skip group already marks v1.2.3. -/
def skiplisted : Settings :=
  { settings0 with skip := [(("v1.2.3").toList, true)] }

/-- Witness for C7: a skip-listed tag is not offered even when the
hypothetical dialog answer would be Install. -/
theorem offerUpdate_skipped_tag_never_presented_witness :
    offerUpdate skiplisted (("v1.2.3").toList) DialogResult.Install =
      { settings := skiplisted, presented := false, installDispatchedTag := none,
        exitRequested := false } :=
  offerUpdate_skipped_tag_never_presented skiplisted (("v1.2.3").toList)
    DialogResult.Install (by decide)

/-- A constructed updater over a store with auto-check on and a last
check recorded at time 0, used to exhibit the stale timer. -/
def stAuto : UpdaterState :=
  construct { settings0 with auto_check := some true, last_check := some 0 } 0

/-- C8: `setBetaAllowed` persists under the key `auto_beta` while the
constructor reads `allow_beta`, so the set-then-construct round trip
loses the value; and it leaves the timer stale (a re-arming setter called
at a later instant recomputes the delay, `setBetaAllowed` does not).  The
other two setters round-trip under their documented keys. -/
theorem setBetaAllowed_wrong_key_and_no_rearm :
    ((setBetaAllowed (construct settings0 0) true).settings).auto_beta = some true ∧
    ((setBetaAllowed (construct settings0 0) true).settings).allow_beta = none ∧
    (construct ((setBetaAllowed (construct settings0 0) true).settings) 0).allowBeta = false ∧
    (setBetaAllowed stAuto true).timer = some 86400000 ∧
    (setAutomaticallyChecksForUpdates stAuto true 1000).timer = some 85400000 ∧
    (construct ((setAutomaticallyChecksForUpdates (construct settings0 0) true 0).settings) 0).autoCheck
      = true ∧
    (construct ((setUpdateCheckInterval (construct settings0 0) 3600 0).settings) 0).updateInterval
      = 3600 := by
  decide

/-- C9: the dependency-version URL builder substitutes loader id 5
whenever the requested loader has the Quilt bit and the override table
has a FLAME entry whose quilt field equals the addon id; on every other
input it uses the static loader mapping. -/
theorem getDependencyURL_quilt_override (ods : List ModPlatform.OverrideDep)
    (args : FlameAPI.DependencySearchArgs) :
    (args.loader.quilt = true →
      (∃ dep ∈ ods, dep.provider = ModPlatform.ResourceProvider.FLAME ∧
        args.dependency.addonId = dep.quilt) →
      FlameAPI.getDependencyURL ods args =
        "https://api.curseforge.com/v1/mods/" ++ args.dependency.addonId ++
          "/files?pageSize=10000&gameVersion=" ++ args.mcVersion ++
          "&modLoaderType=" ++ "5") ∧
    (¬ (args.loader.quilt = true ∧
        ∃ dep ∈ ods, dep.provider = ModPlatform.ResourceProvider.FLAME ∧
          args.dependency.addonId = dep.quilt) →
      FlameAPI.getDependencyURL ods args =
        "https://api.curseforge.com/v1/mods/" ++ args.dependency.addonId ++
          "/files?pageSize=10000&gameVersion=" ++ args.mcVersion ++
          "&modLoaderType=" ++ toString (FlameAPI.getMappedModLoader args.loader)) := by
  have hcond : (args.loader.quilt && ods.any (fun dep =>
      decide (dep.provider = ModPlatform.ResourceProvider.FLAME) &&
      decide (args.dependency.addonId = dep.quilt))) = true ↔
      (args.loader.quilt = true ∧ ∃ dep ∈ ods,
        dep.provider = ModPlatform.ResourceProvider.FLAME ∧
        args.dependency.addonId = dep.quilt) := by
    simp [List.any_eq_true]
  constructor
  · intro hq hex
    simp only [FlameAPI.getDependencyURL]
    rw [if_pos (hcond.mpr ⟨hq, hex⟩)]
    rfl
  · intro hn
    simp only [FlameAPI.getDependencyURL]
    rw [if_neg (fun hc => hn (hcond.mp hc))]

/-- Witness for C9: a Quilt request whose addon id has a FLAME override
entry gets loader id 5; a Forge-and-Quilt request with an empty override
table keeps the static mapping (Forge wins, id 1). -/
theorem getDependencyURL_quilt_override_witness :
    FlameAPI.getDependencyURL [{ quilt := "qsl", provider := ModPlatform.ResourceProvider.FLAME }]
        { dependency := { addonId := "qsl" },
          loader := { neoforge := false, forge := false, fabric := false, quilt := true },
          mcVersion := "1.20" } =
      "https://api.curseforge.com/v1/mods/" ++ "qsl" ++
        "/files?pageSize=10000&gameVersion=" ++ "1.20" ++ "&modLoaderType=" ++ "5" ∧
    FlameAPI.getDependencyURL []
        { dependency := { addonId := "qsl" },
          loader := { neoforge := false, forge := true, fabric := false, quilt := true },
          mcVersion := "1.20" } =
      "https://api.curseforge.com/v1/mods/" ++ "qsl" ++
        "/files?pageSize=10000&gameVersion=" ++ "1.20" ++ "&modLoaderType=" ++
        toString (FlameAPI.getMappedModLoader
          { neoforge := false, forge := true, fabric := false, quilt := true }) :=
  ⟨(getDependencyURL_quilt_override _ _).1 rfl (by decide),
   (getDependencyURL_quilt_override _ _).2 (by decide)⟩

/-- C10: the static loader mapping resolves multi-flag inputs by the
fixed priority Forge (1), Fabric (4), Quilt (5), NeoForge (6), and maps a
set with none of those four bits to 0. -/
theorem getMappedModLoader_priority (l : ModPlatform.ModLoaderTypes) :
    (l.forge = true → FlameAPI.getMappedModLoader l = 1) ∧
    (l.forge = false → l.fabric = true → FlameAPI.getMappedModLoader l = 4) ∧
    (l.forge = false → l.fabric = false → l.quilt = true →
      FlameAPI.getMappedModLoader l = 5) ∧
    (l.forge = false → l.fabric = false → l.quilt = false → l.neoforge = true →
      FlameAPI.getMappedModLoader l = 6) ∧
    (l.forge = false → l.fabric = false → l.quilt = false → l.neoforge = false →
      FlameAPI.getMappedModLoader l = 0) := by
  refine ⟨fun h1 => ?_, fun h1 h2 => ?_, fun h1 h2 h3 => ?_, fun h1 h2 h3 h4 => ?_,
    fun h1 h2 h3 h4 => ?_⟩ <;>
    simp_all [FlameAPI.getMappedModLoader]

/-- Witness for C10: Fabric beats Quilt and NeoForge when Forge is
absent; the empty flag set maps to 0. -/
theorem getMappedModLoader_priority_witness :
    FlameAPI.getMappedModLoader
        { neoforge := true, forge := false, fabric := true, quilt := true } = 4 ∧
    FlameAPI.getMappedModLoader
        { neoforge := false, forge := false, fabric := false, quilt := false } = 0 :=
  ⟨(getMappedModLoader_priority _).2.1 rfl rfl,
   (getMappedModLoader_priority _).2.2.2.2 rfl rfl rfl rfl⟩
